import Mathlib

/-!
Verification development for the controller/widget interaction core of the
FirefoxReality VR browser shell (`app/src/main/cpp/BrowserWorld.cpp` together
with the `Widget` interface of `app/src/main/cpp/Widget.h`).

The embedding is shallow: C++ floats are modelled as exact rationals (`ℚ`),
out-parameters become structure fields, JNI method ids become presence flags
(`Bool`, `true` = the `GetMethodID` lookup succeeded), and the external
collaborators (device delegate, gesture delegate, widget hit-test surface)
are modelled as oracles: structures of plain functions supplying exactly the
values the code reads from them.  Host calls (`env->CallVoidMethod`) are
modelled as emitted events collected in a list, in program order.
-/

namespace BrowserWorld

/-- World-space vector (`vrb::Vector`), with rational components. -/
abbrev Vec3 : Type := ℚ × ℚ × ℚ

/-- The zero vector, the value of a default-constructed `vrb::Vector`. -/
def vzero : Vec3 := (0, 0, 0)

/-- A controller pose (`vrb::Matrix`), used by `UpdateControllers` only through
`MultiplyPosition` and `MultiplyDirection`; both are opaque external math. -/
structure Pose where
  mulPos : Vec3 → Vec3
  mulDir : Vec3 → Vec3

/-- Result of `Widget::TestControllerIntersection` (Widget.h line 30): the
`bool` return value plus the three out-parameters `aResult`, `aIsInWidget`,
`aDistance`. -/
structure HitOutput where
  ret : Bool
  isInWidget : Bool
  result : Vec3
  distance : ℚ

/-- A widget, as consumed by `BrowserWorld::State::UpdateControllers`: its
stable handle (`GetHandle`), its hit-test surface (an oracle, since
`Widget.cpp` is outside this core), and `ConvertToWidgetCoordinates`. -/
structure Widget where
  handle : Nat
  test : Vec3 → Vec3 → HitOutput
  convert : Vec3 → ℚ × ℚ

/-- The device delegate operations read by `UpdateControllers`:
`GetControllerTransform`, `GetControllerButtonState` (the `changed`
out-parameter is unused by the code), and `GetControllerScrolled`, whose
`bool` return plus two out-parameters are modelled as an `Option (ℚ × ℚ)`. -/
structure Device where
  transform : Int → Pose
  buttonState : Int → Bool
  scrolled : Int → Option (ℚ × ℚ)

/-- Gesture kinds (`GestureType`); the code compares only against `SwipeLeft`
and `SwipeRight`, every other member of the external enum behaves like
`Other`. -/
inductive GestureType where
  | SwipeLeft
  | SwipeRight
  | Other
deriving DecidableEq

/-- BrowserWorld.cpp lines 239-244: map a gesture to its Java gesture code
(`GestureSwipeLeft = 0`, `GestureSwipeRight = 1`), `-1` for anything else. -/
def GestureType.javaType : GestureType → Int
  | .SwipeLeft => 0
  | .SwipeRight => 1
  | .Other => -1

/-- BrowserWorld.cpp line 40: `kScrollFactor`. -/
def kScrollFactor : ℚ := 20

/-- BrowserWorld.cpp line 172: `farClip` as initialized by `State::State`. -/
def initialFarClip : ℚ := 100

/-- An outbound JNI call made by `UpdateControllers`
(`handleMotionEvent`, `handleScrollEvent`, `handleGesture`). -/
inductive HostCall where
  | motionEvent (widgetHandle : Nat) (controllerIndex : Int) (pressed : Bool) (x y : ℚ)
  | scrollEvent (widgetHandle : Nat) (controllerIndex : Int) (dx dy : ℚ)
  | gesture (javaType : Int)
deriving DecidableEq

/-- Recognizer for pointer move/press events. -/
def HostCall.isMotion : HostCall → Bool
  | .motionEvent _ _ _ _ _ => true
  | _ => false

/-- Recognizer for scroll events. -/
def HostCall.isScroll : HostCall → Bool
  | .scrollEvent _ _ _ _ => true
  | _ => false

/-- Recognizer for gesture events. -/
def HostCall.isGesture : HostCall → Bool
  | .gesture _ => true
  | _ => false

/-- `ControllerRecord` (BrowserWorld.cpp lines 99-135), the per-controller
debounce state.  The C++ declares `touched` as `float` but only ever assigns
and tests boolean truth values, so it is modelled as `Bool`.  The owned
`TransformPtr controller` scene node is external and not modelled. -/
structure ControllerRecord where
  index : Int
  widget : Nat
  pressed : Bool
  xx : ℚ
  yy : ℚ
  touched : Bool
  touchPadX : ℚ
  touchPadY : ℚ
deriving DecidableEq

/-- `ControllerRecord(const int32_t aIndex)` (line 109): the value-initializing
constructor. -/
def ControllerRecord.initRec (aIndex : Int) : ControllerRecord :=
  { index := aIndex, widget := 0, pressed := false, xx := 0, yy := 0,
    touched := false, touchPadX := 0, touchPadY := 0 }

/-- `ControllerRecord(const ControllerRecord&)` (line 111) initializes only
`widget`, `index` (and the external `controller` node); `pressed`, `xx`, `yy`,
`touched`, `touchPadX`, `touchPadY` are left indeterminate, which the model
makes explicit with the `junk` argument supplying those unspecified values. -/
def ControllerRecord.copyCtor (src junk : ControllerRecord) : ControllerRecord :=
  { junk with widget := src.widget, index := src.index }

/-- `ControllerRecord(ControllerRecord&&)` (line 112): same member-init list as
the copy constructor, so the same six fields are left indeterminate. -/
def ControllerRecord.moveCtor (src junk : ControllerRecord) : ControllerRecord :=
  { junk with widget := src.widget, index := src.index }

/-- `CopyValues` (lines 113-122), used by both assignment operators: copies
every field. -/
def ControllerRecord.copyValues (_dst src : ControllerRecord) : ControllerRecord :=
  { index := src.index, widget := src.widget, pressed := src.pressed,
    xx := src.xx, yy := src.yy, touched := src.touched,
    touchPadX := src.touchPadX, touchPadY := src.touchPadY }

/-- The per-frame environment read (but never written) by the body of
`UpdateControllers`: the widget list, clip distance, device and gesture
oracles, and the resolved-or-null state of the JNI callbacks. -/
structure FrameEnv where
  widgets : List Widget
  farClip : ℚ
  device : Device
  gestures : Option (List GestureType)
  handleMotionEventMethod : Bool
  handleScrollEventMethod : Bool
  handleGestureMethod : Bool

/-- The inner widget loop of `UpdateControllers` (lines 219-234): running over
the (insertion-ordered, position-indexed) widget list with accumulator
`hitWidget` / `hitDistance` / `hitPoint`, replace the accumulator whenever a
widget reports a hit with `isInWidget` and a strictly smaller distance. -/
def hitFold (start dir : Vec3) :
    List (Nat × Widget) → Option (Nat × Widget) → ℚ → Vec3 →
      Option (Nat × Widget) × ℚ × Vec3
  | [], cur, hd, hp => (cur, hd, hp)
  | a :: rest, cur, hd, hp =>
    if ((a.2.test start dir).ret && (a.2.test start dir).isInWidget)
        && decide ((a.2.test start dir).distance < hd) then
      hitFold start dir rest (some a) (a.2.test start dir).distance (a.2.test start dir).result
    else
      hitFold start dir rest cur hd hp

/-- `hitWidget`/`hitDistance`/`hitPoint` after the widget loop, starting from
`hitWidget = nullptr`, `hitDistance = farClip`, `hitPoint` default (lines
219-221).  Widgets are paired with their insertion position to give them the
pointer identity the C++ `WidgetPtr` carries. -/
def nearestHit (ws : List Widget) (farClip : ℚ) (start dir : Vec3) :
    Option (Nat × Widget) × ℚ × Vec3 :=
  hitFold start dir (List.enumFrom 0 ws) none farClip vzero

/-- Whether a widget reports a controller hit with `isInWidget` set, for the
given ray. -/
def inHitP (start dir : Vec3) (w : Widget) : Bool :=
  (w.test start dir).ret && (w.test start dir).isInWidget

/-- The `distance` a widget reports for the given ray. -/
def distOf (start dir : Vec3) (w : Widget) : ℚ :=
  (w.test start dir).distance

/-- The ray cast for a controller record (lines 215-218): position and
`-Z` direction of the controller transform. -/
def controllerRay (dev : Device) (r : ControllerRecord) : Vec3 × Vec3 :=
  ((dev.transform r.index).mulPos vzero,
   (dev.transform r.index).mulDir (0, 0, -1))

/-- The hit-test result for one controller record against the frame's widget
list. -/
def controllerHit (env : FrameEnv) (r : ControllerRecord) :
    Option (Nat × Widget) × ℚ × Vec3 :=
  nearestHit env.widgets env.farClip (controllerRay env.device r).1
    (controllerRay env.device r).2

/-- The gesture block (lines 235-249): if a gesture delegate exists, walk all
pending gestures in order and emit `handleGesture(javaType)` for each one with
a non-negative mapped code, provided the `handleGesture` method resolved. -/
def gestureCalls (handleGestureMethod : Bool) :
    Option (List GestureType) → List HostCall
  | none => []
  | some l =>
    l.filterMap fun t =>
      if decide (0 ≤ t.javaType) && handleGestureMethod then
        some (HostCall.gesture t.javaType)
      else
        none

/-- The edge-triggered pointer dispatch (lines 252-264): compute widget-local
coordinates of the hit point, read the button state, and if any of the four
values differs from the record's last-sent values, emit one
`handleMotionEvent` and update the record. -/
def motionStep (env : FrameEnv) (r : ControllerRecord) (w : Widget) (hitPoint : Vec3) :
    ControllerRecord × List HostCall :=
  if decide (r.xx ≠ (w.convert hitPoint).1) || decide (r.yy ≠ (w.convert hitPoint).2)
      || decide (r.pressed ≠ env.device.buttonState r.index)
      || decide (r.widget ≠ w.handle) then
    ({ r with widget := w.handle, xx := (w.convert hitPoint).1, yy := (w.convert hitPoint).2,
              pressed := env.device.buttonState r.index },
     [HostCall.motionEvent w.handle r.index (env.device.buttonState r.index)
        (w.convert hitPoint).1 (w.convert hitPoint).2])
  else
    (r, [])

/-- The scroll dispatch (lines 265-276): if the device reports a scroll delta,
emit `handleScrollEvent` with the scaled delta against the stored baseline
when the record was already touched and is not pressed, then mark touched and
store the new baseline; otherwise clear touched.  Note the code performs the
call without checking `handleScrollEventMethod` for null (line 268), so the
model emits unconditionally as well. -/
def scrollStep (env : FrameEnv) (r1 : ControllerRecord) :
    ControllerRecord × List HostCall :=
  match env.device.scrolled r1.index with
  | some sc =>
    ({ r1 with touched := true, touchPadX := sc.1, touchPadY := sc.2 },
     if r1.touched && !r1.pressed then
       [HostCall.scrollEvent r1.widget r1.index
          ((sc.1 - r1.touchPadX) * kScrollFactor)
          ((sc.2 - r1.touchPadY) * kScrollFactor)]
     else
       [])
  | none => ({ r1 with touched := false }, [])

/-- One iteration of the controller loop of `UpdateControllers` (lines
214-278) for a single record: ray cast and nearest-hit selection, the gesture
block, then—only when the `handleMotionEvent` method resolved and a widget was
hit—the motion and scroll dispatch.  Returns the updated record, the index
pushed onto `active` (if any), and the host calls in emission order. -/
def stepRecord (env : FrameEnv) (r : ControllerRecord) :
    ControllerRecord × Option Nat × List HostCall :=
  match (controllerHit env r).1 with
  | some iw =>
    if env.handleMotionEventMethod then
      ((scrollStep env (motionStep env r iw.2 (controllerHit env r).2.2).1).1,
       some iw.1,
       gestureCalls env.handleGestureMethod env.gestures ++
         ((motionStep env r iw.2 (controllerHit env r).2.2).2 ++
          (scrollStep env (motionStep env r iw.2 (controllerHit env r).2.2).1).2))
    else
      (r, none, gestureCalls env.handleGestureMethod env.gestures)
  | none => (r, none, gestureCalls env.handleGestureMethod env.gestures)

/-- The mutable state of `BrowserWorld::State` that the claims concern.
`pointers` holds each widget's pointer-highlight flag (the state toggled by
`Widget::TogglePointer`), positionally aligned with `widgets`.  The JNI
method-id fields are presence flags; `glInitResult` is the outcome the
external `Context::InitializeGL` would report this frame. -/
structure WorldState where
  widgets : List Widget
  pointers : List Bool
  controllers : List ControllerRecord
  device : Option Device
  gestures : Option (List GestureType)
  handleMotionEventMethod : Bool
  handleScrollEventMethod : Bool
  handleGestureMethod : Bool
  handleAudioPoseMethod : Bool
  farClip : ℚ
  paused : Bool
  glInitialized : Bool
  glInitResult : Bool

/-- Package the frame-constant parts of the state for the controller loop. -/
def WorldState.frameEnv (s : WorldState) (dev : Device) : FrameEnv :=
  { widgets := s.widgets, farClip := s.farClip, device := dev,
    gestures := s.gestures,
    handleMotionEventMethod := s.handleMotionEventMethod,
    handleScrollEventMethod := s.handleScrollEventMethod,
    handleGestureMethod := s.handleGestureMethod }

/-- `BrowserWorld::State::UpdateControllers` (lines 211-283).  Each record's
iteration is independent of the others (it reads only the frame environment),
so the loop is a map; the widget loop of every iteration toggles every
widget's pointer off (line 223), hence after a nonempty loop all highlights
are cleared before the trailing `active` pass toggles the hit widgets on
(lines 279-282). -/
def updateControllers (s : WorldState) (dev : Device) :
    WorldState × List HostCall :=
  let env := s.frameEnv dev
  let steps := s.controllers.map (stepRecord env)
  let active := steps.filterMap fun x => x.2.1
  let cleared := if s.controllers.isEmpty then s.pointers else s.pointers.map fun _ => false
  ({ s with controllers := steps.map fun x => x.1,
            pointers := active.foldl (fun ps i => ps.set i true) cleared },
   (steps.map fun x => x.2.2).flatten)

/-- The observable actions of one `BrowserWorld::Draw` invocation, in
program order. -/
inductive DrawAction where
  | processEvents
  | contextUpdate
  | host (c : HostCall)
  | drawListReset
  | cull
  | startFrame
  | bindLeftEye
  | drawLeftEye
  | bindRightEye
  | drawRightEye
  | endFrame
  | audioPose
deriving DecidableEq

/-- `BrowserWorld::Draw` (lines 456-496): bail out if the device delegate is
absent or the world is paused; lazily initialize GL, bailing out on failure;
otherwise run the frame sequence.  `noVrApi` is the `VRBROWSER_NO_VR_API`
build flag, which drops the right-eye pass. -/
def draw (s : WorldState) (noVrApi : Bool) : WorldState × List DrawAction :=
  match s.device with
  | none => (s, [])
  | some dev =>
    if s.paused then (s, [])
    else if (s.glInitialized || s.glInitResult) = false then
      ({ s with glInitialized := false }, [])
    else
      ({ (updateControllers s dev).1 with glInitialized := true },
       DrawAction.processEvents :: DrawAction.contextUpdate ::
         ((updateControllers s dev).2.map DrawAction.host ++
           ([DrawAction.drawListReset, DrawAction.cull, DrawAction.startFrame,
             DrawAction.bindLeftEye, DrawAction.drawLeftEye] ++
            ((if noVrApi then [] else [DrawAction.bindRightEye, DrawAction.drawRightEye]) ++
             ([DrawAction.endFrame] ++
              (if s.handleAudioPoseMethod then [DrawAction.audioPose] else []))))))

/-! ### Helper lemmas -/

/-- Every index produced by `List.enumFrom n` is at least `n`. -/
theorem mem_enumFrom_le {α : Type} {p : Nat × α} :
    ∀ {n : Nat} {l : List α}, p ∈ List.enumFrom n l → n ≤ p.1 := by
  intro n l
  induction l generalizing n with
  | nil => intro h; simp [List.enumFrom] at h
  | cons x xs ih =>
    intro h
    rcases List.mem_cons.mp h with h | h
    · subst h; exact le_refl _
    · exact (Nat.le_succ n).trans (ih h)

/-- The indices of `List.enumFrom n` are strictly increasing. -/
theorem pairwise_enumFrom {α : Type} :
    ∀ (n : Nat) (l : List α),
      (List.enumFrom n l).Pairwise (fun a b => a.1 < b.1) := by
  intro n l
  induction l generalizing n with
  | nil => simp [List.enumFrom]
  | cons x xs ih =>
    simp only [List.enumFrom]
    exact List.Pairwise.cons
      (fun q hq => lt_of_lt_of_le (Nat.lt_succ_self n) (mem_enumFrom_le hq))
      (ih (n + 1))

/-- Full behaviour of the widget loop accumulator `hitFold`, by induction on
the remaining widget list.  Reading the conjuncts in order: the running
minimum never increases; it ends below every in-bounds hit distance; a
selected widget reports exactly the final distance and comes from the list or
the incoming accumulator; a selection from the list is an in-bounds hit that
strictly improved on the incoming minimum; the accumulator is never dropped;
if some in-bounds hit beats the incoming minimum a list element is selected;
and a selected list element precedes every in-bounds hit reporting the same
final distance. -/
theorem hitFold_spec (start dir : Vec3) :
    ∀ (l : List (Nat × Widget)) (cur : Option (Nat × Widget)) (hd : ℚ) (hp : Vec3),
    (∀ p, cur = some p → distOf start dir p.2 = hd) →
    (∀ p, cur = some p → ∀ q ∈ l, p.1 < q.1) →
    l.Pairwise (fun a b => a.1 < b.1) →
    ((hitFold start dir l cur hd hp).2.1 ≤ hd) ∧
    (∀ q ∈ l, inHitP start dir q.2 = true →
        (hitFold start dir l cur hd hp).2.1 ≤ distOf start dir q.2) ∧
    (∀ p, (hitFold start dir l cur hd hp).1 = some p →
        distOf start dir p.2 = (hitFold start dir l cur hd hp).2.1 ∧
          (p ∈ l ∨ cur = some p)) ∧
    (∀ p, (hitFold start dir l cur hd hp).1 = some p → p ∈ l →
        inHitP start dir p.2 = true ∧ (hitFold start dir l cur hd hp).2.1 < hd) ∧
    ((hitFold start dir l cur hd hp).1 = none → cur = none) ∧
    ((∃ q ∈ l, inHitP start dir q.2 = true ∧ distOf start dir q.2 < hd) →
        ∃ p ∈ l, (hitFold start dir l cur hd hp).1 = some p) ∧
    (∀ p, (hitFold start dir l cur hd hp).1 = some p → p ∈ l →
        ∀ q ∈ l, inHitP start dir q.2 = true →
          distOf start dir q.2 = (hitFold start dir l cur hd hp).2.1 → p.1 ≤ q.1) := by
  intro l
  induction l with
  | nil =>
    intro cur hd hp h1 _ _
    refine ⟨le_refl _, ?_, ?_, ?_, ?_, ?_, ?_⟩
    · intro q hq; simp at hq
    · intro p hp'
      simp only [hitFold] at hp' ⊢
      exact ⟨h1 p hp', Or.inr hp'⟩
    · intro p _ hmem; simp at hmem
    · intro h; simpa [hitFold] using h
    · rintro ⟨q, hq, _⟩; simp at hq
    · intro p _ hmem; simp at hmem
  | cons a rest ih =>
    intro cur hd hp h1 h2 h3
    have hpw := List.pairwise_cons.mp h3
    by_cases hc :
        (((a.2.test start dir).ret && (a.2.test start dir).isInWidget)
          && decide ((a.2.test start dir).distance < hd)) = true
    · -- the head strictly improves the running minimum and is selected
      have hsel : hitFold start dir (a :: rest) cur hd hp
          = hitFold start dir rest (some a) (a.2.test start dir).distance
              (a.2.test start dir).result := by
        simp [hitFold, hc]
      have hc' := hc
      simp only [Bool.and_eq_true, decide_eq_true_eq] at hc'
      have hin : inHitP start dir a.2 = true := by
        simp [inHitP, hc'.1.1, hc'.1.2]
      have hlt : distOf start dir a.2 < hd := hc'.2
      have h1' : ∀ p, (some a : Option (Nat × Widget)) = some p →
          distOf start dir p.2 = (a.2.test start dir).distance := by
        intro p hpe; cases Option.some.inj hpe; rfl
      have h2' : ∀ p, (some a : Option (Nat × Widget)) = some p →
          ∀ q ∈ rest, p.1 < q.1 := by
        intro p hpe; cases Option.some.inj hpe; exact hpw.1
      obtain ⟨A, B, C, D, N, E, T⟩ :=
        ih (some a) (a.2.test start dir).distance (a.2.test start dir).result h1' h2' hpw.2
      rw [hsel]
      have hAhd : (hitFold start dir rest (some a) (a.2.test start dir).distance
          (a.2.test start dir).result).2.1 ≤ hd := le_of_lt (lt_of_le_of_lt A hlt)
      refine ⟨hAhd, ?_, ?_, ?_, ?_, ?_, ?_⟩
      · intro q hq hqin
        rcases List.mem_cons.mp hq with hq | hq
        · subst hq; exact A
        · exact B q hq hqin
      · intro p hpe
        obtain ⟨hd1, hd2⟩ := C p hpe
        refine ⟨hd1, Or.inl ?_⟩
        rcases hd2 with hd2 | hd2
        · exact List.mem_cons_of_mem _ hd2
        · cases Option.some.inj hd2; exact List.mem_cons_self _ _
      · intro p hpe _
        refine ⟨?_, lt_of_le_of_lt A hlt⟩
        obtain ⟨_, hd2⟩ := C p hpe
        rcases hd2 with hd2 | hd2
        · exact (D p hpe hd2).1
        · cases Option.some.inj hd2; exact hin
      · intro hnone
        exact absurd (N hnone) (by simp)
      · intro _
        cases hre : (hitFold start dir rest (some a) (a.2.test start dir).distance
            (a.2.test start dir).result).1 with
        | none => exact absurd (N hre) (by simp)
        | some p =>
          obtain ⟨_, hd2⟩ := C p hre
          rcases hd2 with hd2 | hd2
          · exact ⟨p, List.mem_cons_of_mem _ hd2, rfl⟩
          · cases Option.some.inj hd2; exact ⟨a, List.mem_cons_self _ _, rfl⟩
      · intro p hpe _ q hq hqin hqd
        obtain ⟨_, hd2⟩ := C p hpe
        rcases List.mem_cons.mp hq with hq | hq
        · -- q is the head: its distance equals the new running minimum start
          subst hq
          rcases hd2 with hd2 | hd2
          · exact absurd hqd (ne_of_gt (D p hpe hd2).2)
          · cases Option.some.inj hd2; exact le_refl _
        · rcases hd2 with hd2 | hd2
          · exact T p hpe hd2 q hq hqin hqd
          · cases Option.some.inj hd2; exact le_of_lt (hpw.1 q hq)
    · -- the head does not improve the running minimum
      have hsel : hitFold start dir (a :: rest) cur hd hp
          = hitFold start dir rest cur hd hp := by
        simp only [hitFold]
        rw [if_neg hc]
      have hcge : inHitP start dir a.2 = true → hd ≤ distOf start dir a.2 := by
        intro hin
        by_contra hlt
        push_neg at hlt
        apply hc
        have hin' := hin
        simp only [inHitP, Bool.and_eq_true] at hin'
        simp [hin'.1, hin'.2, hlt, distOf] at hlt ⊢
        exact hlt
      have h2' : ∀ p, cur = some p → ∀ q ∈ rest, p.1 < q.1 := by
        intro p hpe q hq; exact h2 p hpe q (List.mem_cons_of_mem _ hq)
      obtain ⟨A, B, C, D, N, E, T⟩ := ih cur hd hp h1 h2' hpw.2
      rw [hsel]
      have hnotsel : ∀ p, (hitFold start dir rest cur hd hp).1 = some p → p ≠ a := by
        intro p hpe hpa
        subst hpa
        obtain ⟨_, hd2⟩ := C p hpe
        rcases hd2 with hd2 | hd2
        · exact absurd (hpw.1 p hd2) (lt_irrefl _)
        · exact absurd (h2 p hd2 p (List.mem_cons_self _ _)) (lt_irrefl _)
      refine ⟨A, ?_, ?_, ?_, N, ?_, ?_⟩
      · intro q hq hqin
        rcases List.mem_cons.mp hq with hq | hq
        · subst hq; exact le_trans A (hcge hqin)
        · exact B q hq hqin
      · intro p hpe
        obtain ⟨hd1, hd2⟩ := C p hpe
        refine ⟨hd1, ?_⟩
        rcases hd2 with hd2 | hd2
        · exact Or.inl (List.mem_cons_of_mem _ hd2)
        · exact Or.inr hd2
      · intro p hpe hmem
        rcases List.mem_cons.mp hmem with hmem | hmem
        · exact absurd hmem (hnotsel p hpe)
        · exact D p hpe hmem
      · rintro ⟨q, hq, hqin, hqlt⟩
        rcases List.mem_cons.mp hq with hq | hq
        · subst hq; exact absurd hqlt (not_lt.mpr (hcge hqin))
        · obtain ⟨p, hpmem, hpe⟩ := E ⟨q, hq, hqin, hqlt⟩
          exact ⟨p, List.mem_cons_of_mem _ hpmem, hpe⟩
      · intro p hpe hpmem q hq hqin hqd
        rcases List.mem_cons.mp hpmem with hpm | hpm
        · exact absurd hpm (hnotsel p hpe)
        · rcases List.mem_cons.mp hq with hqm | hqm
          · have h5 : (hitFold start dir rest cur hd hp).2.1 < hd := (D p hpe hpm).2
            have h6 : hd ≤ distOf start dir q.2 := by
              rw [hqm]; exact hcge (by rwa [hqm] at hqin)
            rw [hqd] at h6
            exact absurd (lt_of_le_of_lt h6 h5) (lt_irrefl _)
          · exact T p hpe hpm q hqm hqin hqd

/-! ### Nearest-hit selection (claims C1 and C10) -/

/-- C1 (amended): among the widgets whose `TestControllerIntersection` reports
both a hit and `isInWidget`, and whose reported distance is strictly below
`farClip`, the widget loop selects the one with minimal distance (if no such
widget exists, none is selected); the selected distance is minimal over all
in-bounds hits, and when another in-bounds hit reports the same distance the
earlier-inserted widget is the selected one. -/
theorem nearest_hit_selection (ws : List Widget) (fc : ℚ) (start dir : Vec3) :
    ((∃ q ∈ List.enumFrom 0 ws, inHitP start dir q.2 = true ∧ distOf start dir q.2 < fc) →
        ∃ p ∈ List.enumFrom 0 ws, (nearestHit ws fc start dir).1 = some p) ∧
    (∀ p, (nearestHit ws fc start dir).1 = some p →
        p ∈ List.enumFrom 0 ws ∧ inHitP start dir p.2 = true ∧
        distOf start dir p.2 < fc ∧
        ∀ q ∈ List.enumFrom 0 ws, inHitP start dir q.2 = true →
          distOf start dir p.2 ≤ distOf start dir q.2 ∧
            (distOf start dir q.2 = distOf start dir p.2 → p.1 ≤ q.1)) := by
  obtain ⟨A, B, C, D, N, E, T⟩ :=
    hitFold_spec start dir (List.enumFrom 0 ws) none fc vzero
      (by intro p h; cases h) (by intro p h; cases h) (pairwise_enumFrom 0 ws)
  constructor
  · exact E
  · intro p hpe
    have hC := C p hpe
    have hmem : p ∈ List.enumFrom 0 ws := by
      rcases hC.2 with h | h
      · exact h
      · cases h
    have hD := D p hpe hmem
    refine ⟨hmem, hD.1, ?_, ?_⟩
    · rw [hC.1]; exact hD.2
    · intro q hq hqin
      refine ⟨?_, ?_⟩
      · rw [hC.1]; exact B q hq hqin
      · intro hqd
        exact T p hpe hmem q hq hqin (by rw [hqd, hC.1])

/-- A widget whose hit-test always reports an in-bounds hit at distance
exactly `100`, the initial `farClip`. -/
def wFar : Widget :=
  { handle := 7,
    test := fun _ _ =>
      { ret := true, isInWidget := true, result := vzero, distance := 100 },
    convert := fun _ => (0, 0) }

/-- C1 (counterexample): a widget reporting a hit with `isInWidget = true` at
distance `100 = farClip` is the unique in-bounds hit, yet the loop selects no
widget at all, because the running minimum starts at `farClip` and only
strictly smaller distances replace it — refuting the claim that the hit-test
always selects the minimal-distance widget among all in-bounds hits. -/
theorem farClip_hit_not_selected :
    inHitP vzero vzero wFar = true ∧
    (nearestHit [wFar] initialFarClip vzero vzero).1 = none :=
  ⟨rfl, rfl⟩

/-- Witness for the amended C1 theorem at a concrete two-widget scene in which
both widgets report an in-bounds hit at distance `5`: the first-inserted
widget is selected, is an in-bounds hit, and its distance is below the
clip distance. -/
def wNear : Widget :=
  { handle := 3,
    test := fun _ _ =>
      { ret := true, isInWidget := true, result := (1, 2, 0), distance := 5 },
    convert := fun _ => (1, 2) }

/-- Witness applying `nearest_hit_selection` to the concrete scene
`[wNear, wFar]` with both hypotheses discharged by computation. -/
theorem nearest_hit_selection_witness :
    (0, wNear) ∈ List.enumFrom 0 [wNear, wFar] ∧
    inHitP vzero vzero wNear = true ∧
    distOf vzero vzero wNear < initialFarClip :=
  have h := (nearest_hit_selection [wNear, wFar] initialFarClip vzero vzero).2
    (0, wNear) rfl
  ⟨h.1, h.2.1, h.2.2.1⟩

/-- C10: an in-bounds widget intersection whose distance is at least
`farClip` (initialized to `100`) is never selected as the nearest hit — even
when it is the only in-bounds hit — because the running minimum starts at
`farClip` and only strictly smaller distances replace it. -/
theorem farClip_bound_never_selected (ws : List Widget) (start dir : Vec3)
    (p : Nat × Widget) (hmem : p ∈ List.enumFrom 0 ws)
    (hhit : inHitP start dir p.2 = true)
    (hfar : initialFarClip ≤ distOf start dir p.2) :
    (nearestHit ws initialFarClip start dir).1 ≠ some p := by
  intro he
  obtain ⟨A, B, C, D, N, E, T⟩ :=
    hitFold_spec start dir (List.enumFrom 0 ws) none initialFarClip vzero
      (by intro q h; cases h) (by intro q h; cases h) (pairwise_enumFrom 0 ws)
  have h1 := (C p he).1
  have h2 := (D p he hmem).2
  rw [← h1] at h2
  exact absurd (lt_of_le_of_lt hfar h2) (lt_irrefl _)

/-- Witness applying `farClip_bound_never_selected` to the single-widget scene
`[wFar]`, whose only widget is an in-bounds hit at distance exactly
`farClip`. -/
theorem farClip_bound_never_selected_witness :
    (nearestHit [wFar] initialFarClip vzero vzero).1 ≠ some (0, wFar) :=
  farClip_bound_never_selected [wFar] vzero vzero (0, wFar)
    (by simp [List.enumFrom]) rfl (le_refl _)

/-! ### Dispatch-step helper lemmas -/

/-- Every call emitted by the gesture block is a gesture event. -/
theorem gestureCalls_mem {hgm : Bool} {gl : Option (List GestureType)} {c : HostCall}
    (h : c ∈ gestureCalls hgm gl) : ∃ j, c = HostCall.gesture j := by
  cases gl with
  | none => simp [gestureCalls] at h
  | some l =>
    simp only [gestureCalls, List.mem_filterMap] at h
    obtain ⟨t, _, ht⟩ := h
    by_cases hc : (decide (0 ≤ t.javaType) && hgm) = true
    · rw [if_pos hc] at ht
      exact ⟨t.javaType, (Option.some.inj ht).symm⟩
    · rw [if_neg hc] at ht
      cases ht

/-- The gesture block emits no pointer events. -/
theorem gestureCalls_count_motion (hgm : Bool) (gl : Option (List GestureType)) :
    (gestureCalls hgm gl).countP HostCall.isMotion = 0 := by
  rw [List.countP_eq_zero]
  intro c hc
  obtain ⟨j, rfl⟩ := gestureCalls_mem hc
  simp [HostCall.isMotion]

/-- The gesture block emits no scroll events. -/
theorem gestureCalls_count_scroll (hgm : Bool) (gl : Option (List GestureType)) :
    (gestureCalls hgm gl).countP HostCall.isScroll = 0 := by
  rw [List.countP_eq_zero]
  intro c hc
  obtain ⟨j, rfl⟩ := gestureCalls_mem hc
  simp [HostCall.isScroll]

/-- Every call emitted by the gesture block is counted by `isGesture`. -/
theorem gestureCalls_count_gesture (hgm : Bool) (gl : Option (List GestureType)) :
    (gestureCalls hgm gl).countP HostCall.isGesture = (gestureCalls hgm gl).length := by
  rw [List.countP_eq_length]
  intro c hc
  obtain ⟨j, rfl⟩ := gestureCalls_mem hc
  rfl

/-- The motion step emits no scroll events. -/
theorem motionStep_count_scroll (env : FrameEnv) (r : ControllerRecord) (w : Widget)
    (hp : Vec3) : (motionStep env r w hp).2.countP HostCall.isScroll = 0 := by
  unfold motionStep
  split <;> rfl

/-- The motion step emits no gesture events. -/
theorem motionStep_count_gesture (env : FrameEnv) (r : ControllerRecord) (w : Widget)
    (hp : Vec3) : (motionStep env r w hp).2.countP HostCall.isGesture = 0 := by
  unfold motionStep
  split <;> rfl

/-- The motion step leaves the scroll-related fields and the index alone. -/
theorem motionStep_preserves (env : FrameEnv) (r : ControllerRecord) (w : Widget)
    (hp : Vec3) :
    (motionStep env r w hp).1.touched = r.touched ∧
    (motionStep env r w hp).1.touchPadX = r.touchPadX ∧
    (motionStep env r w hp).1.touchPadY = r.touchPadY ∧
    (motionStep env r w hp).1.index = r.index := by
  unfold motionStep
  split <;> exact ⟨rfl, rfl, rfl, rfl⟩

/-- After the motion step the record's `pressed` field always equals the
button state read this frame (either it already did, or it was assigned). -/
theorem motionStep_pressed (env : FrameEnv) (r : ControllerRecord) (w : Widget)
    (hp : Vec3) :
    (motionStep env r w hp).1.pressed = env.device.buttonState r.index := by
  unfold motionStep
  split
  · rfl
  · rename_i h
    simp only [Bool.or_eq_true, decide_eq_true_eq] at h
    push_neg at h
    exact h.1.2

/-- The scroll step leaves the pointer-dispatch fields and the index alone. -/
theorem scrollStep_preserves (env : FrameEnv) (r1 : ControllerRecord) :
    (scrollStep env r1).1.widget = r1.widget ∧
    (scrollStep env r1).1.xx = r1.xx ∧
    (scrollStep env r1).1.yy = r1.yy ∧
    (scrollStep env r1).1.pressed = r1.pressed ∧
    (scrollStep env r1).1.index = r1.index := by
  unfold scrollStep
  split <;> exact ⟨rfl, rfl, rfl, rfl, rfl⟩

/-- The scroll step emits no pointer events. -/
theorem scrollStep_count_motion (env : FrameEnv) (r1 : ControllerRecord) :
    (scrollStep env r1).2.countP HostCall.isMotion = 0 := by
  unfold scrollStep
  split
  · split <;> rfl
  · rfl

/-- The scroll step emits no gesture events. -/
theorem scrollStep_count_gesture (env : FrameEnv) (r1 : ControllerRecord) :
    (scrollStep env r1).2.countP HostCall.isGesture = 0 := by
  unfold scrollStep
  split
  · split <;> rfl
  · rfl

/-- Any call emitted by the scroll step requires `touched` set and `pressed`
clear on entry, and is the scaled difference against the stored baseline. -/
theorem scrollStep_calls (env : FrameEnv) (r1 : ControllerRecord) (c : HostCall)
    (hc : c ∈ (scrollStep env r1).2) :
    r1.touched = true ∧ r1.pressed = false ∧
    ∃ sc, env.device.scrolled r1.index = some sc ∧
      c = HostCall.scrollEvent r1.widget r1.index
            ((sc.1 - r1.touchPadX) * kScrollFactor)
            ((sc.2 - r1.touchPadY) * kScrollFactor) := by
  revert hc
  unfold scrollStep
  cases hsc : env.device.scrolled r1.index with
  | none => intro hc; simp at hc
  | some sc =>
    dsimp only
    by_cases ht : (r1.touched && !r1.pressed) = true
    · rw [if_pos ht]
      intro hc
      rw [List.mem_singleton] at hc
      simp only [Bool.and_eq_true, Bool.not_eq_true'] at ht
      exact ⟨ht.1, ht.2, sc, rfl, hc⟩
    · rw [if_neg ht]
      intro hc
      simp at hc

/-- When the device reports a delta and the record was touched and is not
pressed, the scroll step emits exactly the scaled delta event. -/
theorem scrollStep_emits (env : FrameEnv) (r1 : ControllerRecord) (sc : ℚ × ℚ)
    (hsc : env.device.scrolled r1.index = some sc)
    (ht : r1.touched = true) (hpr : r1.pressed = false) :
    (scrollStep env r1).2 =
      [HostCall.scrollEvent r1.widget r1.index
        ((sc.1 - r1.touchPadX) * kScrollFactor)
        ((sc.2 - r1.touchPadY) * kScrollFactor)] := by
  unfold scrollStep
  rw [hsc]
  simp [ht, hpr]

/-- On the first frame a delta appears (`touched` clear on entry) the scroll
step emits nothing but records touched and the new baseline. -/
theorem scrollStep_first (env : FrameEnv) (r1 : ControllerRecord) (sc : ℚ × ℚ)
    (hsc : env.device.scrolled r1.index = some sc) (ht : r1.touched = false) :
    (scrollStep env r1).2 = [] ∧ (scrollStep env r1).1.touched = true ∧
    (scrollStep env r1).1.touchPadX = sc.1 ∧ (scrollStep env r1).1.touchPadY = sc.2 := by
  unfold scrollStep
  rw [hsc]
  simp [ht]

/-- Whenever the device reports a delta, the scroll step records touched and
the new baseline. -/
theorem scrollStep_some_state (env : FrameEnv) (r1 : ControllerRecord) (sc : ℚ × ℚ)
    (hsc : env.device.scrolled r1.index = some sc) :
    (scrollStep env r1).1.touched = true ∧
    (scrollStep env r1).1.touchPadX = sc.1 ∧ (scrollStep env r1).1.touchPadY = sc.2 := by
  unfold scrollStep
  rw [hsc]
  exact ⟨rfl, rfl, rfl⟩

/-- On a frame with no reported delta, the scroll step clears `touched` and
emits nothing. -/
theorem scrollStep_none (env : FrameEnv) (r1 : ControllerRecord)
    (hsc : env.device.scrolled r1.index = none) :
    (scrollStep env r1).1.touched = false ∧ (scrollStep env r1).2 = [] := by
  unfold scrollStep
  rw [hsc]
  exact ⟨rfl, rfl⟩

/-- Shape of one controller iteration when the motion callback resolved and a
widget was hit: the record passes through the motion then the scroll step, the
hit index is pushed onto `active`, and the calls are the gesture block's, then
the motion step's, then the scroll step's. -/
theorem stepRecord_hit (env : FrameEnv) (r : ControllerRecord) (iw : Nat × Widget)
    (hm : env.handleMotionEventMethod = true)
    (hh : (controllerHit env r).1 = some iw) :
    stepRecord env r =
      ((scrollStep env (motionStep env r iw.2 (controllerHit env r).2.2).1).1,
       some iw.1,
       gestureCalls env.handleGestureMethod env.gestures ++
         ((motionStep env r iw.2 (controllerHit env r).2.2).2 ++
          (scrollStep env (motionStep env r iw.2 (controllerHit env r).2.2).1).2)) := by
  unfold stepRecord
  rw [hh, hm]
  rfl

/-! ### Edge-triggered pointer dispatch (claim C2) -/

/-- C2: for a controller whose nearest hit is widget `iw` (with the motion
callback resolved), if the tuple (localX, localY, pressed, widgetHandle)
computed this frame equals the record's last-sent values then no pointer event
is emitted and those fields are unchanged; if any field differs then exactly
one pointer event carrying all four current values is emitted and the record
is updated to those values. -/
theorem motion_edge_trigger (env : FrameEnv) (r : ControllerRecord) (iw : Nat × Widget)
    (hm : env.handleMotionEventMethod = true)
    (hh : (controllerHit env r).1 = some iw) :
    ((r.xx = (iw.2.convert (controllerHit env r).2.2).1 ∧
      r.yy = (iw.2.convert (controllerHit env r).2.2).2 ∧
      r.pressed = env.device.buttonState r.index ∧
      r.widget = iw.2.handle) →
      (stepRecord env r).2.2.countP HostCall.isMotion = 0 ∧
      (stepRecord env r).1.widget = r.widget ∧
      (stepRecord env r).1.xx = r.xx ∧
      (stepRecord env r).1.yy = r.yy ∧
      (stepRecord env r).1.pressed = r.pressed) ∧
    (¬(r.xx = (iw.2.convert (controllerHit env r).2.2).1 ∧
       r.yy = (iw.2.convert (controllerHit env r).2.2).2 ∧
       r.pressed = env.device.buttonState r.index ∧
       r.widget = iw.2.handle) →
      (stepRecord env r).2.2.countP HostCall.isMotion = 1 ∧
      HostCall.motionEvent iw.2.handle r.index (env.device.buttonState r.index)
          (iw.2.convert (controllerHit env r).2.2).1
          (iw.2.convert (controllerHit env r).2.2).2 ∈ (stepRecord env r).2.2 ∧
      (stepRecord env r).1.widget = iw.2.handle ∧
      (stepRecord env r).1.xx = (iw.2.convert (controllerHit env r).2.2).1 ∧
      (stepRecord env r).1.yy = (iw.2.convert (controllerHit env r).2.2).2 ∧
      (stepRecord env r).1.pressed = env.device.buttonState r.index) := by
  have hstep := stepRecord_hit env r iw hm hh
  constructor
  · intro h4
    have hcond : (decide (r.xx ≠ (iw.2.convert (controllerHit env r).2.2).1) ||
        decide (r.yy ≠ (iw.2.convert (controllerHit env r).2.2).2) ||
        decide (r.pressed ≠ env.device.buttonState r.index) ||
        decide (r.widget ≠ iw.2.handle)) = false := by
      simp [h4.1, h4.2.1, h4.2.2.1, h4.2.2.2]
    have hms : motionStep env r iw.2 (controllerHit env r).2.2 = (r, []) := by
      unfold motionStep
      rw [hcond]
      rfl
    rw [hstep, hms]
    refine ⟨?_, ?_, ?_, ?_, ?_⟩
    · simp only [List.countP_append, gestureCalls_count_motion,
        scrollStep_count_motion]
      rfl
    · exact (scrollStep_preserves env r).1
    · exact (scrollStep_preserves env r).2.1
    · exact (scrollStep_preserves env r).2.2.1
    · exact (scrollStep_preserves env r).2.2.2.1
  · intro h4
    have hcond : (decide (r.xx ≠ (iw.2.convert (controllerHit env r).2.2).1) ||
        decide (r.yy ≠ (iw.2.convert (controllerHit env r).2.2).2) ||
        decide (r.pressed ≠ env.device.buttonState r.index) ||
        decide (r.widget ≠ iw.2.handle)) = true := by
      rcases Decidable.em (r.xx = (iw.2.convert (controllerHit env r).2.2).1) with h1 | h1
      · rcases Decidable.em (r.yy = (iw.2.convert (controllerHit env r).2.2).2) with h2 | h2
        · rcases Decidable.em (r.pressed = env.device.buttonState r.index) with h3 | h3
          · rcases Decidable.em (r.widget = iw.2.handle) with h5 | h5
            · exact absurd ⟨h1, h2, h3, h5⟩ h4
            · simp [h5]
          · simp [h3]
        · simp [h2]
      · simp [h1]
    have hms : motionStep env r iw.2 (controllerHit env r).2.2 =
        ({ r with widget := iw.2.handle,
                  xx := (iw.2.convert (controllerHit env r).2.2).1,
                  yy := (iw.2.convert (controllerHit env r).2.2).2,
                  pressed := env.device.buttonState r.index },
         [HostCall.motionEvent iw.2.handle r.index (env.device.buttonState r.index)
            (iw.2.convert (controllerHit env r).2.2).1
            (iw.2.convert (controllerHit env r).2.2).2]) := by
      unfold motionStep
      rw [hcond]
      rfl
    rw [hstep, hms]
    refine ⟨?_, ?_, ?_, ?_, ?_, ?_⟩
    · simp only [List.countP_append, gestureCalls_count_motion,
        scrollStep_count_motion]
      rfl
    · simp
    · exact (scrollStep_preserves env _).1
    · exact (scrollStep_preserves env _).2.1
    · exact (scrollStep_preserves env _).2.2.1
    · exact (scrollStep_preserves env _).2.2.2.1

/-- A device whose only controller reports no button press and no scroll. -/
def devIdle : Device :=
  { transform := fun _ => { mulPos := fun v => v, mulDir := fun v => v },
    buttonState := fun _ => false,
    scrolled := fun _ => none }

/-- Frame environment with one widget (`wNear`), everything resolved, and the
idle device. -/
def envW2 : FrameEnv :=
  { widgets := [wNear], farClip := 100, device := devIdle, gestures := none,
    handleMotionEventMethod := true, handleScrollEventMethod := true,
    handleGestureMethod := true }

/-- A fresh controller record whose last-sent values all differ from the
frame's computed tuple (`wNear` converts the hit point to `(1, 2)` and has
handle `3`). -/
theorem motion_edge_trigger_witness :
    (stepRecord envW2 (ControllerRecord.initRec 0)).2.2.countP HostCall.isMotion = 1 ∧
    HostCall.motionEvent 3 0 false 1 2 ∈ (stepRecord envW2 (ControllerRecord.initRec 0)).2.2 ∧
    (stepRecord envW2 (ControllerRecord.initRec 0)).1.widget = 3 ∧
    (stepRecord envW2 (ControllerRecord.initRec 0)).1.xx = 1 ∧
    (stepRecord envW2 (ControllerRecord.initRec 0)).1.yy = 2 ∧
    (stepRecord envW2 (ControllerRecord.initRec 0)).1.pressed = false :=
  (motion_edge_trigger envW2 (ControllerRecord.initRec 0) (0, wNear) rfl rfl).2
    (by intro h; exact absurd h.2.2.2 (by norm_num [ControllerRecord.initRec, wNear]))

/-! ### Scroll dispatch (claim C3) -/

/-- C3: for a controller whose nearest hit is widget `iw` (with the motion
callback resolved — the scroll block is inside that guard): a scroll event is
emitted only when the record's `touched` flag was set on entry and the
controller is not currently pressed, and it carries the per-axis difference
against the stored baseline times the scroll scale factor 20; on the first
frame a delta appears (`touched` clear on entry) nothing is emitted but
`touched` is set and the delta stored as baseline; when the device reports no
delta, `touched` is cleared; and when `touched` was set, the button is up and
a delta is present, exactly one scroll event is emitted. -/
theorem scroll_dispatch (env : FrameEnv) (r : ControllerRecord) (iw : Nat × Widget)
    (hm : env.handleMotionEventMethod = true)
    (hh : (controllerHit env r).1 = some iw) :
    (∀ c ∈ (stepRecord env r).2.2, c.isScroll = true →
        r.touched = true ∧ env.device.buttonState r.index = false ∧
        ∃ sc, env.device.scrolled r.index = some sc ∧
          c = HostCall.scrollEvent (stepRecord env r).1.widget r.index
                ((sc.1 - r.touchPadX) * kScrollFactor)
                ((sc.2 - r.touchPadY) * kScrollFactor)) ∧
    (∀ sc, env.device.scrolled r.index = some sc → r.touched = false →
        (stepRecord env r).2.2.countP HostCall.isScroll = 0 ∧
        (stepRecord env r).1.touched = true ∧
        (stepRecord env r).1.touchPadX = sc.1 ∧
        (stepRecord env r).1.touchPadY = sc.2) ∧
    (env.device.scrolled r.index = none → (stepRecord env r).1.touched = false) ∧
    (∀ sc, env.device.scrolled r.index = some sc → r.touched = true →
        env.device.buttonState r.index = false →
        (stepRecord env r).2.2.countP HostCall.isScroll = 1 ∧
        HostCall.scrollEvent (stepRecord env r).1.widget r.index
            ((sc.1 - r.touchPadX) * kScrollFactor)
            ((sc.2 - r.touchPadY) * kScrollFactor) ∈ (stepRecord env r).2.2) := by
  have hstep := stepRecord_hit env r iw hm hh
  have hr1idx := (motionStep_preserves env r iw.2 (controllerHit env r).2.2).2.2.2
  have hr1t := (motionStep_preserves env r iw.2 (controllerHit env r).2.2).1
  have hr1x := (motionStep_preserves env r iw.2 (controllerHit env r).2.2).2.1
  have hr1y := (motionStep_preserves env r iw.2 (controllerHit env r).2.2).2.2.1
  have hr1p := motionStep_pressed env r iw.2 (controllerHit env r).2.2
  refine ⟨?_, ?_, ?_, ?_⟩
  · intro c hc hcs
    rw [hstep] at hc
    simp only [List.mem_append] at hc
    rcases hc with hc | hc | hc
    · obtain ⟨j, rfl⟩ := gestureCalls_mem hc
      cases hcs
    · have := motionStep_count_scroll env r iw.2 (controllerHit env r).2.2
      rw [List.countP_eq_zero] at this
      exact absurd hcs (this c hc)
    · obtain ⟨ht, hpr, sc, hsc, hceq⟩ := scrollStep_calls env _ c hc
      rw [hr1idx] at hsc
      refine ⟨by rw [← hr1t]; exact ht, by rw [← hr1p]; exact hpr, sc, hsc, ?_⟩
      rw [hceq, hstep]
      simp only [hr1idx, hr1x, hr1y,
        (scrollStep_preserves env (motionStep env r iw.2 (controllerHit env r).2.2).1).1]
  · intro sc hsc ht
    have hsc1 : env.device.scrolled
        (motionStep env r iw.2 (controllerHit env r).2.2).1.index = some sc := by
      rw [hr1idx]; exact hsc
    have ht1 : (motionStep env r iw.2 (controllerHit env r).2.2).1.touched = false := by
      rw [hr1t]; exact ht
    obtain ⟨he, hta, hbx, hby⟩ := scrollStep_first env _ sc hsc1 ht1
    rw [hstep]
    refine ⟨?_, hta, hbx, hby⟩
    simp only [List.countP_append, gestureCalls_count_scroll,
      motionStep_count_scroll, he]
    rfl
  · intro hsc
    have hsc1 : env.device.scrolled
        (motionStep env r iw.2 (controllerHit env r).2.2).1.index = none := by
      rw [hr1idx]; exact hsc
    rw [hstep]
    exact (scrollStep_none env _ hsc1).1
  · intro sc hsc ht hbs
    have hsc1 : env.device.scrolled
        (motionStep env r iw.2 (controllerHit env r).2.2).1.index = some sc := by
      rw [hr1idx]; exact hsc
    have ht1 : (motionStep env r iw.2 (controllerHit env r).2.2).1.touched = true := by
      rw [hr1t]; exact ht
    have hp1 : (motionStep env r iw.2 (controllerHit env r).2.2).1.pressed = false := by
      rw [hr1p]; exact hbs
    have he := scrollStep_emits env _ sc hsc1 ht1 hp1
    rw [hstep]
    constructor
    · simp only [List.countP_append, gestureCalls_count_scroll,
        motionStep_count_scroll, he]
      rfl
    · simp only [List.mem_append, he]
      right; right
      rw [hr1idx, hr1x, hr1y]
      simp only [(scrollStep_preserves env _).1]
      exact List.mem_singleton.mpr rfl

/-- Frame environment for exercising the scroll step: one widget, a device
reporting a scroll delta of `(1, 1)`, every callback resolved. -/
def envW3 : FrameEnv :=
  { widgets := [wNear], farClip := 100,
    device := { transform := fun _ => { mulPos := fun v => v, mulDir := fun v => v },
                buttonState := fun _ => false,
                scrolled := fun _ => some (1, 1) },
    gestures := none,
    handleMotionEventMethod := true, handleScrollEventMethod := true,
    handleGestureMethod := true }

/-- A record already touched with baseline `(0, 0)` whose last-sent pointer
tuple matches the frame's computed one. -/
def rTouched : ControllerRecord :=
  { index := 0, widget := 3, pressed := false, xx := 1, yy := 2,
    touched := true, touchPadX := 0, touchPadY := 0 }

/-- Witness applying `scroll_dispatch` to a touched, unpressed controller with
delta `(1, 1)` against baseline `(0, 0)`: exactly one scroll event of
magnitude `(1 - 0) * 20` per axis. -/
theorem scroll_dispatch_witness :
    (stepRecord envW3 rTouched).2.2.countP HostCall.isScroll = 1 ∧
    HostCall.scrollEvent (stepRecord envW3 rTouched).1.widget 0
        (((1 : ℚ) - 0) * kScrollFactor) (((1 : ℚ) - 0) * kScrollFactor)
      ∈ (stepRecord envW3 rTouched).2.2 :=
  (scroll_dispatch envW3 rTouched (0, wNear) rfl rfl).2.2.2 (1, 1) rfl rfl rfl

/-! ### Gesture dispatch (claim C4) -/

/-- Sum of a list mapped through a pointwise-constant function. -/
theorem sum_map_const {α : Type} (l : List α) (n : Nat) (f : α → Nat)
    (hf : ∀ a ∈ l, f a = n) : (l.map f).sum = l.length * n := by
  induction l with
  | nil => simp
  | cons a rest ih =>
    simp only [List.map_cons, List.sum_cons, List.length_cons]
    rw [hf a (List.mem_cons_self _ _),
      ih fun b hb => hf b (List.mem_cons_of_mem _ hb)]
    ring

/-- Every controller iteration replays the whole gesture drain: its emitted
gesture events number exactly the recognized pending gestures. -/
theorem stepRecord_count_gesture (env : FrameEnv) (r : ControllerRecord) :
    (stepRecord env r).2.2.countP HostCall.isGesture =
      (gestureCalls env.handleGestureMethod env.gestures).length := by
  unfold stepRecord
  cases h : (controllerHit env r).1 with
  | none => simp [gestureCalls_count_gesture]
  | some iw =>
    by_cases hm : env.handleMotionEventMethod = true
    · simp [hm, List.countP_append, gestureCalls_count_gesture,
        motionStep_count_gesture, scrollStep_count_gesture]
    · rw [Bool.not_eq_true] at hm
      simp [hm, gestureCalls_count_gesture]

/-- With the gesture callback resolved, one pass of the gesture drain emits
exactly the recognized gestures, mapped to their Java codes, in order. -/
theorem gestureCalls_true_eq (l : List GestureType) :
    gestureCalls true (some l) =
      (l.filter fun t => decide (0 ≤ t.javaType)).map
        fun t => HostCall.gesture t.javaType := by
  induction l with
  | nil => rfl
  | cons t rest ih =>
    simp only [gestureCalls, Bool.and_true] at ih ⊢
    rw [List.filterMap_cons, List.filter_cons]
    by_cases ht : decide (0 ≤ t.javaType) = true
    · simp [ht]
      simpa using ih
    · simp [ht]
      simpa using ih

/-- C4 (amended): the gesture drain runs once per controller record, not once
per frame: a frame's gesture events number the controller count times the
recognized (SwipeLeft/SwipeRight, with the gesture callback resolved) pending
gestures, and the drain maps exactly the recognized gestures to their Java
codes, silently dropping other kinds. -/
theorem gesture_dispatch_count (s : WorldState) (dev : Device) :
    (updateControllers s dev).2.countP HostCall.isGesture =
      s.controllers.length *
        (gestureCalls s.handleGestureMethod s.gestures).length ∧
    ∀ l : List GestureType,
      gestureCalls true (some l) =
        (l.filter fun t => decide (0 ≤ t.javaType)).map
          fun t => HostCall.gesture t.javaType := by
  constructor
  · unfold updateControllers
    simp only [List.countP_flatten, List.map_map]
    exact sum_map_const s.controllers _ _
      fun r _ => stepRecord_count_gesture (s.frameEnv dev) r
  · exact gestureCalls_true_eq

/-- A world with two controller records, one pending `SwipeLeft`, no widgets,
and every callback resolved. -/
def sC4 : WorldState :=
  { widgets := [], pointers := [],
    controllers := [ControllerRecord.initRec 0, ControllerRecord.initRec 1],
    device := some devIdle, gestures := some [GestureType.SwipeLeft],
    handleMotionEventMethod := true, handleScrollEventMethod := true,
    handleGestureMethod := true, handleAudioPoseMethod := false,
    farClip := 100, paused := false, glInitialized := true, glInitResult := true }

/-- C4 (counterexample): with two controller records and a single pending
`SwipeLeft`, one `UpdateControllers` invocation emits the host gesture event
twice — once per controller record — refuting the claim that each recognized
gesture produces exactly one host call per frame regardless of the number of
controller records. -/
theorem gesture_emitted_per_controller :
    sC4.gestures = some [GestureType.SwipeLeft] ∧
    sC4.controllers.length = 2 ∧
    (updateControllers sC4 devIdle).2 = [HostCall.gesture 0, HostCall.gesture 0] :=
  ⟨rfl, rfl, rfl⟩

/-! ### Null-callback degradation (claim C5) -/

/-- Frame environment in which the `handleScrollEvent` method id failed to
resolve (is null) while everything else resolved, with a device reporting a
scroll delta. -/
def envC5 : FrameEnv :=
  { widgets := [wNear], farClip := 100,
    device := { transform := fun _ => { mulPos := fun v => v, mulDir := fun v => v },
                buttonState := fun _ => false,
                scrolled := fun _ => some (1, 1) },
    gestures := none,
    handleMotionEventMethod := true, handleScrollEventMethod := false,
    handleGestureMethod := false }

/-- C5 (code bug): with a null `handleScrollEventMethod`, a touched unpressed
controller whose ray hits a widget still produces a scroll host call — the
call site (BrowserWorld.cpp line 268) never null-checks the scroll method id,
unlike every sibling call site — so a null scroll handle does not merely
disable scroll events, contradicting the claim. -/
theorem scroll_call_ignores_null_handle :
    envC5.handleScrollEventMethod = false ∧
    (stepRecord envC5 rTouched).2.2.countP HostCall.isScroll = 1 :=
  ⟨rfl, rfl⟩

/-! ### Controller-record construction (claim C7) -/

/-- Arbitrary stack garbage standing in for the indeterminate values of the
uninitialized members left behind by the copy/move constructors. -/
def junkRec : ControllerRecord :=
  { index := 99, widget := 99, pressed := true, xx := 42, yy := 42,
    touched := true, touchPadX := 42, touchPadY := 42 }

/-- C7 (code bug): moving a freshly constructed record (whose last-sent
`pressed` is `false`) into the controllers vector goes through the move
constructor, which initializes only `widget` and `index`; the remaining six
fields take whatever indeterminate values the storage holds, so the moved
record can report `pressed = true` — the last-sent-value invariant is not
preserved by the copy/move constructors. -/
theorem controllerRecord_move_drops_state :
    (ControllerRecord.initRec 0).pressed = false ∧
    (ControllerRecord.moveCtor (ControllerRecord.initRec 0) junkRec).index = 0 ∧
    (ControllerRecord.moveCtor (ControllerRecord.initRec 0) junkRec).widget = 0 ∧
    (ControllerRecord.moveCtor (ControllerRecord.initRec 0) junkRec).pressed = true ∧
    (ControllerRecord.copyValues junkRec (ControllerRecord.initRec 0)).pressed = false :=
  ⟨rfl, rfl, rfl, rfl, rfl⟩

/-! ### Pointer highlight (claim C6) -/

/-- Effect of the trailing `active` pass on one highlight slot: indices in the
list are forced on, all other slots keep their value. -/
theorem foldl_set_get (l : List Nat) :
    ∀ (ps : List Bool) (j : Nat),
      (l.foldl (fun a i => a.set i true) ps)[j]? =
        if j ∈ l ∧ j < ps.length then some true else ps[j]? := by
  induction l with
  | nil => intro ps j; simp
  | cons i rest ih =>
    intro ps j
    simp only [List.foldl_cons]
    rw [ih (ps.set i true) j]
    simp only [List.length_set]
    by_cases h1 : j ∈ rest ∧ j < ps.length
    · rw [if_pos h1, if_pos ⟨List.mem_cons_of_mem _ h1.1, h1.2⟩]
    · rw [if_neg h1, List.getElem?_set]
      by_cases h2 : i = j
      · subst h2
        by_cases h3 : i < ps.length
        · rw [if_pos rfl, if_pos h3, if_pos ⟨List.mem_cons_self _ _, h3⟩]
        · rw [if_pos rfl, if_neg h3, if_neg fun hc => h3 hc.2,
            List.getElem?_eq_none (not_lt.mp h3)]
      · rw [if_neg h2, if_neg ?_]
        intro hc
        rcases List.mem_cons.mp hc.1 with hji | hji
        · exact h2 hji.symm
        · exact h1 ⟨hji, hc.2⟩

/-- With the motion callback resolved, a controller pushes index `j` onto the
`active` list exactly when its nearest hit is the widget at position `j`. -/
theorem stepRecord_active (env : FrameEnv) (r : ControllerRecord)
    (hm : env.handleMotionEventMethod = true) (j : Nat) :
    (stepRecord env r).2.1 = some j ↔
      ∃ w, (controllerHit env r).1 = some (j, w) := by
  unfold stepRecord
  cases hc : (controllerHit env r).1 with
  | none => simp
  | some iw =>
    rw [hm]
    constructor
    · intro h
      simp only [if_pos rfl] at h
      refine ⟨iw.2, ?_⟩
      have : iw.1 = j := Option.some.inj h
      rw [← this]
    · rintro ⟨w, hw⟩
      cases Option.some.inj hw
      simp

/-- Entry `j` of a cleared highlight list reads `false` when in range. -/
theorem cleared_get (ps : List Bool) (j : Nat) (hj : j < ps.length) :
    (ps.map fun _ => false)[j]? = some false := by
  rw [List.getElem?_map, List.getElem?_eq_getElem hj]
  rfl

/-- C6 (amended): after an `UpdateControllers` invocation with at least one
controller record and with the motion-event callback resolved, a widget's
pointer highlight ends up active exactly when it was the nearest in-bounds hit
of at least one controller this frame, and inactive otherwise. (With a null
motion callback no widget joins the `active` list, and with zero controller
records no highlight is toggled at all, so the claim's set equality needs both
hypotheses.) -/
theorem pointer_highlight_set (s : WorldState) (dev : Device)
    (hm : s.handleMotionEventMethod = true)
    (hne : s.controllers ≠ [])
    (hlen : s.pointers.length = s.widgets.length) :
    ∀ j, j < s.widgets.length →
      (((∃ r ∈ s.controllers, ∃ w,
            (controllerHit (s.frameEnv dev) r).1 = some (j, w)) →
          (updateControllers s dev).1.pointers[j]? = some true) ∧
       ((¬ ∃ r ∈ s.controllers, ∃ w,
            (controllerHit (s.frameEnv dev) r).1 = some (j, w)) →
          (updateControllers s dev).1.pointers[j]? = some false)) := by
  intro j hj
  have hie : s.controllers.isEmpty = false := by
    cases hcs : s.controllers
    · exact absurd hcs hne
    · rfl
  have hmE : (s.frameEnv dev).handleMotionEventMethod = true := hm
  have hactive : ∀ x : List HostCall,
      (j ∈ (s.controllers.map (stepRecord (s.frameEnv dev))).filterMap
          fun p => p.2.1) ↔
        ∃ r ∈ s.controllers, ∃ w,
          (controllerHit (s.frameEnv dev) r).1 = some (j, w) := by
    intro _
    simp only [List.mem_filterMap, List.mem_map]
    constructor
    · rintro ⟨p, ⟨r, hr, rfl⟩, hp⟩
      exact ⟨r, hr, (stepRecord_active (s.frameEnv dev) r hmE j).mp hp⟩
    · rintro ⟨r, hr, hw⟩
      exact ⟨stepRecord (s.frameEnv dev) r, ⟨r, hr, rfl⟩,
        (stepRecord_active (s.frameEnv dev) r hmE j).mpr hw⟩
  have hget : (updateControllers s dev).1.pointers[j]? =
      if (j ∈ (s.controllers.map (stepRecord (s.frameEnv dev))).filterMap
            fun p => p.2.1) ∧ j < (s.pointers.map fun _ => false).length
        then some true else (s.pointers.map fun _ => false)[j]? := by
    unfold updateControllers
    simp only [hie, Bool.false_eq_true, if_false]
    exact foldl_set_get _ _ j
  have hjp : j < s.pointers.length := by rw [hlen]; exact hj
  have hjm : j < (s.pointers.map fun _ => false).length := by
    rw [List.length_map]; exact hjp
  constructor
  · intro hex
    rw [hget, if_pos ⟨(hactive []).mpr hex, hjm⟩]
  · intro hnex
    rw [hget, if_neg fun hc => hnex ((hactive []).mp hc.1)]
    exact cleared_get s.pointers j hjp

/-- A world with one controller, one widget (`wNear`, which the controller's
ray hits in bounds), a previously active highlight, and a null
`handleMotionEvent` method id. -/
def sC6 : WorldState :=
  { widgets := [wNear], pointers := [true],
    controllers := [ControllerRecord.initRec 0],
    device := some devIdle, gestures := none,
    handleMotionEventMethod := false, handleScrollEventMethod := true,
    handleGestureMethod := true, handleAudioPoseMethod := false,
    farClip := 100, paused := false, glInitialized := true, glInitResult := true }

/-- C6 (counterexample): the controller's nearest in-bounds hit is widget `0`,
yet after `UpdateControllers` that widget's highlight is toggled inactive (the
`active` push sits behind the `handleMotionEventMethod` null-check), so the
toggled-active set `∅` differs from the nearest-hit set `{0}`. -/
theorem highlight_skipped_without_motion_method :
    (controllerHit (sC6.frameEnv devIdle) (ControllerRecord.initRec 0)).1
        = some (0, wNear) ∧
    sC6.pointers = [true] ∧
    (updateControllers sC6 devIdle).1.pointers = [false] :=
  ⟨rfl, rfl, rfl⟩

/-- A world identical to `sC6` except that the motion callback resolved. -/
def sW6 : WorldState :=
  { widgets := [wNear], pointers := [false],
    controllers := [ControllerRecord.initRec 0],
    device := some devIdle, gestures := none,
    handleMotionEventMethod := true, handleScrollEventMethod := true,
    handleGestureMethod := true, handleAudioPoseMethod := false,
    farClip := 100, paused := false, glInitialized := true, glInitResult := true }

/-- Witness applying `pointer_highlight_set` to `sW6`: widget `0` is the
controller's nearest hit and its highlight ends active. -/
theorem pointer_highlight_set_witness :
    (updateControllers sW6 devIdle).1.pointers[0]? = some true :=
  ((pointer_highlight_set sW6 devIdle rfl (by simp [sW6]) rfl 0 (by simp [sW6])).1)
    ⟨ControllerRecord.initRec 0, List.mem_cons_self _ _, wNear, rfl⟩

/-! ### Frame ordering and the pause gate (claims C8 and C9) -/

/-- C8: in every `Draw` invocation that reaches rendering, the scene is culled
into the shared draw list exactly once, before the left-eye draw; no culling
occurs after it (in particular none between the two eye draws); and when the
right eye is built in (`noVrApi = false`) the right-eye draw comes after the
left-eye draw. -/
theorem draw_eye_order (s : WorldState) (dev : Device) (noVrApi : Bool)
    (hdev : s.device = some dev) (hp : s.paused = false)
    (hgl : (s.glInitialized || s.glInitResult) = true) :
    ∃ pre mid post,
      (draw s noVrApi).2 = pre ++ DrawAction.cull :: (mid ++ DrawAction.drawLeftEye :: post) ∧
      DrawAction.cull ∉ mid ∧ DrawAction.cull ∉ post ∧
      DrawAction.drawLeftEye ∉ pre ∧ DrawAction.drawLeftEye ∉ mid ∧
      DrawAction.drawRightEye ∉ pre ∧ DrawAction.drawRightEye ∉ mid ∧
      (noVrApi = false → DrawAction.drawRightEye ∈ post) := by
  have htr : (draw s noVrApi).2 =
      DrawAction.processEvents :: DrawAction.contextUpdate ::
        ((updateControllers s dev).2.map DrawAction.host ++
          ([DrawAction.drawListReset, DrawAction.cull, DrawAction.startFrame,
            DrawAction.bindLeftEye, DrawAction.drawLeftEye] ++
           ((if noVrApi then []
             else [DrawAction.bindRightEye, DrawAction.drawRightEye]) ++
            ([DrawAction.endFrame] ++
             (if s.handleAudioPoseMethod then [DrawAction.audioPose] else []))))) := by
    unfold draw
    rw [hdev]
    simp [hp, hgl]
  refine ⟨DrawAction.processEvents :: DrawAction.contextUpdate ::
      ((updateControllers s dev).2.map DrawAction.host ++ [DrawAction.drawListReset]),
    [DrawAction.startFrame, DrawAction.bindLeftEye],
    (if noVrApi then [] else [DrawAction.bindRightEye, DrawAction.drawRightEye]) ++
      ([DrawAction.endFrame] ++
        (if s.handleAudioPoseMethod then [DrawAction.audioPose] else [])),
    ?_, ?_, ?_, ?_, ?_, ?_, ?_, ?_⟩
  · rw [htr]
    simp
  · simp
  · cases noVrApi <;> cases hau : s.handleAudioPoseMethod <;> simp
  · simp
  · simp
  · simp
  · simp
  · intro hvr
    rw [hvr]
    simp

/-- C9: whenever the world is paused, or the device delegate is absent,
`Draw` returns immediately: the state is unchanged (no controller-record
update, no draw-list reset, no highlight change) and no action — in
particular no host call — is performed. -/
theorem draw_paused_noop (s : WorldState) (noVrApi : Bool)
    (h : s.paused = true ∨ s.device = none) :
    draw s noVrApi = (s, []) := by
  unfold draw
  cases hdev : s.device with
  | none => rfl
  | some dev =>
    dsimp only
    rcases h with h | h
    · rw [if_pos h]
    · rw [hdev] at h
      cases h

/-- A paused world holding a device, a widget, a controller, and resolved
callbacks — nothing of which `Draw` may touch while paused. -/
def sPaused : WorldState :=
  { widgets := [wNear], pointers := [true],
    controllers := [rTouched],
    device := some devIdle, gestures := some [GestureType.SwipeLeft],
    handleMotionEventMethod := true, handleScrollEventMethod := true,
    handleGestureMethod := true, handleAudioPoseMethod := true,
    farClip := 100, paused := true, glInitialized := true, glInitResult := true }

/-- Witness applying `draw_paused_noop` to the concrete paused world. -/
theorem draw_paused_noop_witness :
    draw sPaused false = (sPaused, []) :=
  draw_paused_noop sPaused false (Or.inl rfl)

/-- A world ready to render: device present, not paused, GL initialized. -/
def sLive : WorldState :=
  { widgets := [wNear], pointers := [false],
    controllers := [ControllerRecord.initRec 0],
    device := some devIdle, gestures := none,
    handleMotionEventMethod := true, handleScrollEventMethod := true,
    handleGestureMethod := true, handleAudioPoseMethod := true,
    farClip := 100, paused := false, glInitialized := true, glInitResult := true }

/-- Witness applying `draw_eye_order` to the concrete live world with both
eyes built in. -/
theorem draw_eye_order_witness :
    ∃ pre mid post,
      (draw sLive false).2 = pre ++ DrawAction.cull :: (mid ++ DrawAction.drawLeftEye :: post) ∧
      DrawAction.cull ∉ mid ∧ DrawAction.cull ∉ post ∧
      DrawAction.drawLeftEye ∉ pre ∧ DrawAction.drawLeftEye ∉ mid ∧
      DrawAction.drawRightEye ∉ pre ∧ DrawAction.drawRightEye ∉ mid ∧
      (false = false → DrawAction.drawRightEye ∈ post) :=
  draw_eye_order sLive devIdle false rfl rfl rfl

end BrowserWorld
